import Mathlib

/-!
# Satellite-Tracker client core: shallow embedding and verification

Embedding of the core client logic of the Satellite-Tracker frontend:

* `retryWithBackoff` (frontend/src/utils/retry.js) together with the
  status-401 handling of the axios response interceptor
  (frontend/src/services/httpClient.js);
* `AuthService.isAuthenticated` (frontend/src/services/authService.js);
* `loadDashboardData`, `refreshPositions` and the derived-view pipeline
  `filteredAndSortedSatellites` / `filteredAndSortedPasses` of the
  `SatelliteTrackingDashboard` component.

JS numbers are modelled as `ℚ`, statuses as `Nat`, and promise outcomes as
explicit result values.  Effects that the claims talk about (which fetches
were issued, how often the session was invalidated, what the state arrays
hold after an in-place sort) are returned explicitly by the embedded
functions.
-/

/-- The error object an attempt can reject with: `status` is
`error.response?.status` (`none` when no response was obtained, e.g. a
network failure), `errId` is the identity of the JS error object, letting
theorems talk about *which* error is surfaced. -/
structure ApiError where
  status : Option Nat
  errId : Nat
deriving DecidableEq, Repr

/-- Outcome of one call of the wrapped request function `fn`. -/
inductive Outcome (α : Type) where
  | success : α → Outcome α
  | failure : ApiError → Outcome α
deriving DecidableEq, Repr

/-- The guard of retry.js line 18–22:
`error.response?.status >= 400 && error.response?.status < 500 &&
error.response?.status !== 429` — a client error that must not be retried. -/
def isNonRetryable (e : ApiError) : Bool :=
  match e.status with
  | some s => decide (400 ≤ s) && decide (s < 500) && decide (s ≠ 429)
  | none => false

/-- Whether the axios response interceptor (httpClient.js lines 36–48) sees a
401 on this error; each attempt issues a fresh request config, so
`originalRequest._retry` is false and the interceptor clears the persisted
token (invalidates the session) exactly when the status is 401. -/
def is401 (e : ApiError) : Bool := e.status == some 401

/-- Observable trace of one `retryWithBackoff` call: the settled result, the
total number of request attempts issued, the backoff delays awaited (in ms,
in order), and how many times the 401 interceptor invalidated the session. -/
structure RetryTrace (α : Type) where
  result : Except ApiError α
  attempts : Nat
  delays : List ℚ
  invalidations : Nat
deriving Repr

/-- The `for (let attempt = 0; attempt <= maxRetries; attempt++)` loop of
`retryWithBackoff`, with `fuel` the number of loop iterations still allowed
(`fuel = maxRetries + 1 - attempt` on every call, so the `0` case is never
reached from `retryWithBackoff`).  `fn i` is the outcome of the `i`-th call
of the wrapped function, `jitter i ∈ [0,1)` the value `Math.random()`
returns before the `i`-th backoff sleep.  Matching the source: a 4xx other
than 429 is re-thrown at once; on the last iteration (`fuel = 0` after the
match, i.e. `attempt === maxRetries`) the loop breaks and the last error is
thrown; otherwise the loop sleeps `baseDelay * 2^attempt + jitter * 1000`
ms and retries. -/
def retryLoop {α : Type} (fn : Nat → Outcome α) (baseDelay : ℚ) (jitter : Nat → ℚ) :
    Nat → Nat → List ℚ → Nat → RetryTrace α
  | _, 0, delays, inv => ⟨.error ⟨none, 0⟩, 0, delays, inv⟩
  | attempt, fuel + 1, delays, inv =>
    match fn attempt with
    | .success v => ⟨.ok v, attempt + 1, delays, inv⟩
    | .failure e =>
      let inv' := inv + (if is401 e then 1 else 0)
      if isNonRetryable e then ⟨.error e, attempt + 1, delays, inv'⟩
      else if fuel = 0 then ⟨.error e, attempt + 1, delays, inv'⟩
      else retryLoop fn baseDelay jitter (attempt + 1) fuel
        (delays ++ [baseDelay * 2 ^ attempt + jitter attempt * 1000]) inv'

/-- `retryWithBackoff(fn, maxRetries, baseDelay)` of retry.js (defaults
`maxRetries = 3`, `baseDelay = 1000`).  The spec's `RetryPolicy.maxAttempts`
counts the first attempt, so it corresponds to `maxRetries + 1` here. -/
def retryWithBackoff {α : Type} (fn : Nat → Outcome α) (maxRetries : Nat)
    (baseDelay : ℚ) (jitter : Nat → ℚ) : RetryTrace α :=
  retryLoop fn baseDelay jitter 0 (maxRetries + 1) [] 0

/-- A 401 is one of the non-retryable client statuses. -/
lemma is401_isNonRetryable (e : ApiError) (h : is401 e = true) :
    isNonRetryable e = true := by
  rcases e with ⟨st, id⟩
  cases st with
  | none => simp [is401] at h
  | some s =>
    simp [is401] at h
    subst h
    rfl

lemma retryLoop_attempts_le {α : Type} (fn : Nat → Outcome α) (baseDelay : ℚ)
    (jitter : Nat → ℚ) :
    ∀ (fuel attempt : Nat) (delays : List ℚ) (inv : Nat),
      (retryLoop fn baseDelay jitter attempt fuel delays inv).attempts ≤ attempt + fuel := by
  intro fuel
  induction fuel with
  | zero => intro attempt delays inv; simp [retryLoop]
  | succ f ih =>
    intro attempt delays inv
    rw [retryLoop]
    cases hfn : fn attempt with
    | success v => simp
    | failure e =>
      by_cases hnr : isNonRetryable e = true
      · simp [hnr]
      · by_cases hf : f = 0
        · simp [hnr, hf]
        · simp only [hnr, hf, if_false, Bool.false_eq_true, if_neg, ite_false]
          calc (retryLoop fn baseDelay jitter (attempt + 1) f
                  (delays ++ [baseDelay * 2 ^ attempt + jitter attempt * 1000])
                  (inv + if is401 e then 1 else 0)).attempts
              ≤ (attempt + 1) + f := ih (attempt + 1) _ _
            _ = attempt + (f + 1) := by omega

lemma retryLoop_allfail {α : Type} (fn : Nat → Outcome α) (baseDelay : ℚ)
    (jitter : Nat → ℚ) (errs : Nat → ApiError) :
    ∀ (fuel attempt : Nat) (delays : List ℚ) (inv : Nat),
      (∀ i, attempt ≤ i → i ≤ attempt + fuel →
        fn i = .failure (errs i) ∧ isNonRetryable (errs i) = false) →
      (retryLoop fn baseDelay jitter attempt (fuel + 1) delays inv).result
          = .error (errs (attempt + fuel)) ∧
      (retryLoop fn baseDelay jitter attempt (fuel + 1) delays inv).attempts
          = attempt + fuel + 1 := by
  intro fuel
  induction fuel with
  | zero =>
    intro attempt delays inv h
    obtain ⟨hfn, hnr⟩ := h attempt le_rfl (by omega)
    rw [retryLoop, hfn]
    simp [hnr]
  | succ f ih =>
    intro attempt delays inv h
    obtain ⟨hfn, hnr⟩ := h attempt le_rfl (by omega)
    rw [retryLoop, hfn]
    simp only [hnr, Bool.false_eq_true, if_false, Nat.succ_ne_zero, ite_false]
    have h' : ∀ i, attempt + 1 ≤ i → i ≤ (attempt + 1) + f →
        fn i = .failure (errs i) ∧ isNonRetryable (errs i) = false := by
      intro i h1 h2
      exact h i (by omega) (by omega)
    have hrec := ih (attempt + 1) (delays ++ [baseDelay * 2 ^ attempt + jitter attempt * 1000])
      (inv + if is401 (errs attempt) then 1 else 0) h'
    have harith : attempt + 1 + f = attempt + (f + 1) := by omega
    constructor
    · rw [hrec.1, harith]
    · rw [hrec.2]; omega

/-- The delay recorded before the `i`-th retry (0-based): retry.js line 30,
`baseDelay * Math.pow(2, attempt) + Math.random() * 1000`. -/
def backoffDelay (baseDelay : ℚ) (jitter : Nat → ℚ) (i : Nat) : ℚ :=
  baseDelay * 2 ^ i + jitter i * 1000

lemma retryLoop_delays_range {α : Type} (fn : Nat → Outcome α) (baseDelay : ℚ)
    (jitter : Nat → ℚ) :
    ∀ (fuel attempt : Nat) (inv : Nat),
      ∃ m, (retryLoop fn baseDelay jitter attempt fuel
              ((List.range attempt).map (backoffDelay baseDelay jitter)) inv).delays
            = (List.range m).map (backoffDelay baseDelay jitter) := by
  intro fuel
  induction fuel with
  | zero =>
    intro attempt inv
    exact ⟨attempt, by simp [retryLoop]⟩
  | succ f ih =>
    intro attempt inv
    rw [retryLoop]
    cases hfn : fn attempt with
    | success v => exact ⟨attempt, rfl⟩
    | failure e =>
      by_cases hnr : isNonRetryable e = true
      · simp only [hnr, if_true]
        exact ⟨attempt, rfl⟩
      · by_cases hf : f = 0
        · simp only [hnr, hf, Bool.false_eq_true, if_false, ite_true, ite_false]
          exact ⟨attempt, rfl⟩
        · simp only [hnr, hf, Bool.false_eq_true, if_false, ite_false]
          have hext : (List.range attempt).map (backoffDelay baseDelay jitter)
              ++ [baseDelay * 2 ^ attempt + jitter attempt * 1000]
              = (List.range (attempt + 1)).map (backoffDelay baseDelay jitter) := by
            rw [List.range_succ, List.map_append]
            rfl
          rw [hext]
          exact ih (attempt + 1) _

/-- The delays a `retryWithBackoff` call awaits are, in order, exactly the
values `baseDelay * 2^0 + jitter 0 * 1000`, `baseDelay * 2^1 + ...`, one per
failed retryable attempt. -/
lemma retryWithBackoff_delays_range {α : Type} (fn : Nat → Outcome α)
    (maxRetries : Nat) (baseDelay : ℚ) (jitter : Nat → ℚ) :
    ∃ m, (retryWithBackoff fn maxRetries baseDelay jitter).delays
          = (List.range m).map (backoffDelay baseDelay jitter) := by
  have := retryLoop_delays_range fn baseDelay jitter (maxRetries + 1) 0 0
  simpa [retryWithBackoff] using this

lemma retryLoop_invalidations {α : Type} (fn : Nat → Outcome α) (baseDelay : ℚ)
    (jitter : Nat → ℚ) :
    ∀ (fuel attempt : Nat) (delays : List ℚ),
      (retryLoop fn baseDelay jitter attempt fuel delays 0).invalidations ≤ 1 ∧
      (∀ e, (retryLoop fn baseDelay jitter attempt fuel delays 0).result = .error e →
        e.status = some 401 →
        (retryLoop fn baseDelay jitter attempt fuel delays 0).invalidations = 1) := by
  intro fuel
  induction fuel with
  | zero =>
    intro attempt delays
    refine ⟨by simp [retryLoop], ?_⟩
    intro e he h401
    simp only [retryLoop] at he
    injection he with he
    rw [← he] at h401
    simp at h401
  | succ f ih =>
    intro attempt delays
    rw [retryLoop]
    cases hfn : fn attempt with
    | success v =>
      refine ⟨by simp, ?_⟩
      intro e he
      simp at he
    | failure e0 =>
      by_cases h401 : is401 e0 = true
      · have hnr := is401_isNonRetryable e0 h401
        simp only [h401, hnr, if_true]
        refine ⟨le_rfl, ?_⟩
        intro e _ _
        trivial
      · by_cases hnr : isNonRetryable e0 = true
        · simp only [h401, hnr, if_true, Bool.false_eq_true, if_false]
          refine ⟨by omega, ?_⟩
          intro e he hst
          injection he with he
          rw [← he] at hst
          rw [is401] at h401
          simp [hst] at h401
        · by_cases hf : f = 0
          · simp only [h401, hnr, hf, Bool.false_eq_true, if_false, ite_true, ite_false]
            refine ⟨by omega, ?_⟩
            intro e he hst
            injection he with he
            rw [← he] at hst
            rw [is401] at h401
            simp [hst] at h401
          · simp only [h401, hnr, hf, Bool.false_eq_true, if_false, ite_false]
            exact ih (attempt + 1) _

/-- **C1.** For every request function and retry configuration, one
`retryWithBackoff` call issues at most `maxRetries + 1` total attempts — the
spec's `RetryPolicy.maxAttempts`, inclusive of the first attempt — and when
every attempt fails with a retryable error the call returns the error
observed on the final attempt. -/
theorem C1_retry_attempt_bound_last_error {α : Type} (fn : Nat → Outcome α)
    (maxRetries : Nat) (baseDelay : ℚ) (jitter : Nat → ℚ) (errs : Nat → ApiError) :
    (retryWithBackoff fn maxRetries baseDelay jitter).attempts ≤ maxRetries + 1 ∧
    ((∀ i, i ≤ maxRetries → fn i = .failure (errs i) ∧ isNonRetryable (errs i) = false) →
      (retryWithBackoff fn maxRetries baseDelay jitter).result = .error (errs maxRetries) ∧
      (retryWithBackoff fn maxRetries baseDelay jitter).attempts = maxRetries + 1) := by
  constructor
  · have h := retryLoop_attempts_le fn baseDelay jitter (maxRetries + 1) 0 [] 0
    simpa [retryWithBackoff] using h
  · intro h
    have hall := retryLoop_allfail fn baseDelay jitter errs maxRetries 0 [] 0 ?_
    · constructor
      · have := hall.1
        simpa [retryWithBackoff] using this
      · have := hall.2
        simpa [retryWithBackoff] using this
    · intro i h1 h2
      exact h i (by omega)

/-- Witness for C1 at a concrete input: three attempts allowed
(`maxRetries = 2`), every attempt rejects with status 500; the call makes at
most three attempts and surfaces the final attempt's error. -/
theorem C1_retry_attempt_bound_last_error_witness :
    (retryWithBackoff (fun _ => Outcome.failure ⟨some 500, 3⟩) 2 100
        (fun _ => 0) : RetryTrace Nat).attempts ≤ 3 ∧
    (retryWithBackoff (fun _ => Outcome.failure ⟨some 500, 3⟩) 2 100
        (fun _ => 0) : RetryTrace Nat).result = .error ⟨some 500, 3⟩ := by
  have h := @C1_retry_attempt_bound_last_error Nat
    (fun _ => Outcome.failure ⟨some 500, 3⟩) 2 100 (fun _ => 0)
    (fun _ => ⟨some 500, 3⟩)
  exact ⟨h.1, (h.2 (fun i _ => ⟨rfl, by decide⟩)).1⟩

/-- **C2.** A first attempt rejecting with any 4xx status other than 429
(in particular 400, 403, 404) is surfaced at once: exactly one attempt is
issued, no backoff delay is awaited, and the result is that first attempt's
classified error. -/
theorem C2_client_error_no_retry {α : Type} (fn : Nat → Outcome α)
    (maxRetries : Nat) (baseDelay : ℚ) (jitter : Nat → ℚ) (e : ApiError) (s : Nat)
    (hfn : fn 0 = .failure e) (hs : e.status = some s)
    (h400 : 400 ≤ s) (h500 : s < 500) (h429 : s ≠ 429) :
    (retryWithBackoff fn maxRetries baseDelay jitter).result = .error e ∧
    (retryWithBackoff fn maxRetries baseDelay jitter).attempts = 1 ∧
    (retryWithBackoff fn maxRetries baseDelay jitter).delays = [] := by
  have hnr : isNonRetryable e = true := by
    rcases e with ⟨st, id⟩
    simp only at hs
    subst hs
    simp [isNonRetryable, h400, h500, h429]
  rw [retryWithBackoff, retryLoop, hfn]
  simp [hnr]

/-- Witness for C2: a 404 on the first attempt with `maxRetries = 3` yields
that error after exactly one attempt and no delays. -/
theorem C2_client_error_no_retry_witness :
    (retryWithBackoff (fun _ => Outcome.failure ⟨some 404, 5⟩) 3 1000
        (fun _ => 0) : RetryTrace Nat).result = .error ⟨some 404, 5⟩ ∧
    (retryWithBackoff (fun _ => Outcome.failure ⟨some 404, 5⟩) 3 1000
        (fun _ => 0) : RetryTrace Nat).attempts = 1 ∧
    (retryWithBackoff (fun _ => Outcome.failure ⟨some 404, 5⟩) 3 1000
        (fun _ => 0) : RetryTrace Nat).delays = [] :=
  C2_client_error_no_retry (fun _ => Outcome.failure ⟨some 404, 5⟩) 3 1000
    (fun _ => 0) ⟨some 404, 5⟩ 404 rfl rfl (by norm_num) (by norm_num) (by norm_num)

/-- **C3.** Every backoff delay the call awaits is bounded: the `N`-th delay
(the wait after the `N`-th failed retryable attempt, `N ≥ 1`) is at least
`baseDelay * 2^(N-1)` and strictly below `baseDelay * 2^(N-1) + 1000` ms,
for every jitter draw in `[0, 1)`. -/
theorem C3_backoff_delay_bounds {α : Type} (fn : Nat → Outcome α)
    (maxRetries : Nat) (baseDelay : ℚ) (jitter : Nat → ℚ)
    (hj : ∀ k, 0 ≤ jitter k ∧ jitter k < 1) (N : Nat) (_hN : 1 ≤ N)
    (h : N - 1 < (retryWithBackoff fn maxRetries baseDelay jitter).delays.length) :
    baseDelay * 2 ^ (N - 1)
        ≤ (retryWithBackoff fn maxRetries baseDelay jitter).delays.get ⟨N - 1, h⟩ ∧
    (retryWithBackoff fn maxRetries baseDelay jitter).delays.get ⟨N - 1, h⟩
        < baseDelay * 2 ^ (N - 1) + 1000 := by
  obtain ⟨m, hm⟩ := retryWithBackoff_delays_range fn maxRetries baseDelay jitter
  have hget : (retryWithBackoff fn maxRetries baseDelay jitter).delays.get ⟨N - 1, h⟩
      = backoffDelay baseDelay jitter (N - 1) := by
    rw [List.get_of_eq hm]
    simp
  rw [hget, backoffDelay]
  obtain ⟨hj0, hj1⟩ := hj (N - 1)
  have hlow : (0 : ℚ) ≤ jitter (N - 1) * 1000 :=
    mul_nonneg hj0 (by norm_num)
  have hhigh : jitter (N - 1) * 1000 < 1000 := by
    have := mul_lt_mul_of_pos_right hj1 (show (0 : ℚ) < 1000 by norm_num)
    simpa using this
  constructor
  · linarith
  · linarith

/-- The concrete run used to witness C3 awaits at least one backoff delay. -/
lemma c3_concrete_delays_length :
    0 < (retryWithBackoff (fun _ => Outcome.failure ⟨some 500, 1⟩) 1 100
          (fun _ => (1 : ℚ)/2) : RetryTrace Nat).delays.length := by
  decide

/-- Witness for C3: one retry with `baseDelay = 100` and jitter 1/2: the
first delay lies in `[100, 1100)`. -/
theorem C3_backoff_delay_bounds_witness :
    (100 : ℚ) * 2 ^ (1 - 1)
        ≤ (retryWithBackoff (fun _ => Outcome.failure ⟨some 500, 1⟩) 1 100
            (fun _ => (1 : ℚ)/2) : RetryTrace Nat).delays.get ⟨1 - 1, c3_concrete_delays_length⟩ ∧
    (retryWithBackoff (fun _ => Outcome.failure ⟨some 500, 1⟩) 1 100
        (fun _ => (1 : ℚ)/2) : RetryTrace Nat).delays.get ⟨1 - 1, c3_concrete_delays_length⟩
        < (100 : ℚ) * 2 ^ (1 - 1) + 1000 :=
  @C3_backoff_delay_bounds Nat (fun _ => Outcome.failure ⟨some 500, 1⟩) 1 100
    (fun _ => (1 : ℚ)/2) (fun _ => by norm_num) 1 le_rfl c3_concrete_delays_length

/-- **C4.** Within a single `retryWithBackoff` call the 401 interceptor
invalidates the session at most once, and exactly once whenever any attempt
of the call observes a 401 — which, 401 being non-retryable, is equivalent
to the call surfacing an error whose status is 401. -/
theorem C4_invalidate_once_per_call {α : Type} (fn : Nat → Outcome α)
    (maxRetries : Nat) (baseDelay : ℚ) (jitter : Nat → ℚ) :
    (retryWithBackoff fn maxRetries baseDelay jitter).invalidations ≤ 1 ∧
    (∀ e, (retryWithBackoff fn maxRetries baseDelay jitter).result = .error e →
      e.status = some 401 →
      (retryWithBackoff fn maxRetries baseDelay jitter).invalidations = 1) := by
  have h := retryLoop_invalidations fn baseDelay jitter (maxRetries + 1) 0 []
  exact ⟨h.1, h.2⟩

/-- Witness for C4: every attempt would return 401; the session is
invalidated exactly once. -/
theorem C4_invalidate_once_per_call_witness :
    (retryWithBackoff (fun _ => Outcome.failure ⟨some 401, 9⟩) 3 1000
        (fun _ => 0) : RetryTrace Nat).invalidations = 1 :=
  (@C4_invalidate_once_per_call Nat (fun _ => Outcome.failure ⟨some 401, 9⟩) 3 1000
    (fun _ => 0)).2 ⟨some 401, 9⟩ rfl rfl

/-! ## Token lifecycle: `AuthService.isAuthenticated` (authService.js 93–107)

The persisted JWT is read from local storage; `isAuthenticated` returns
false when it is absent, false (clearing it) when its payload fails to
parse, and otherwise `tokenData.exp > Date.now() / 1000`. -/

/-- What the persisted token slot holds as `isAuthenticated` reads it:
nothing, an unparsable token, or a token whose payload carries
`exp` (expiry in epoch seconds). -/
inductive StoredToken where
  | absent
  | malformed
  | valid (exp : ℚ)
deriving DecidableEq, Repr

/-- `AuthService.isAuthenticated`, with `now = Date.now() / 1000` passed
explicitly.  A session is "Authenticated" exactly when the slot holds a
parsable token. -/
def isAuthenticated (t : StoredToken) (now : ℚ) : Bool :=
  match t with
  | .absent => false
  | .malformed => false
  | .valid exp => decide (exp > now)

/-- **C5.** `isAuthenticated` returns true iff the stored session is a
parsable (Authenticated) token whose `exp` is strictly greater than `now`;
at the boundary `exp = now` — and for any expiry in the past — it returns
false. -/
theorem C5_isAuthenticated_iff (t : StoredToken) (now : ℚ) :
    (isAuthenticated t now = true ↔ ∃ exp, t = .valid exp ∧ exp > now) ∧
    isAuthenticated (.valid now) now = false := by
  refine ⟨?_, by simp [isAuthenticated]⟩
  cases t with
  | absent => simp [isAuthenticated]
  | malformed => simp [isAuthenticated]
  | valid exp => simp [isAuthenticated]

/-! ## Health-gated dashboard refresh (`SatelliteTrackingDashboard`)

`loadDashboardData` probes `/health` first; on an unhealthy probe it
surfaces an error, clears both collections and returns before issuing the
two `Promise.allSettled` fetches.  On a healthy probe each fetch degrades
only its own collection to `[]` on rejection, and the last-updated
timestamp is set unconditionally afterwards. -/

/-- A satellite position snapshot (`current_position`). -/
structure Position where
  latitude : ℚ
  longitude : ℚ
  altitude : ℚ
  velocity : ℚ
  timestamp : ℚ
deriving DecidableEq, Repr

/-- A favorite-satellite row as the dashboard stores it. -/
structure Satellite where
  id : Nat
  name : String
  norad_id : Nat
  current_position : Option Position
  added_at : ℚ
deriving DecidableEq, Repr

/-- The `pass.satellite` sub-record. -/
structure SatelliteRef where
  name : String
  norad_id : Nat
deriving DecidableEq, Repr

/-- An upcoming-pass row as the dashboard stores it (`start_time` as the
epoch value of `new Date(start_time)`). -/
structure Pass where
  satellite : SatelliteRef
  start_time : ℚ
  duration : ℚ
  max_elevation : ℚ
  visibility : String
  magnitude : Option ℚ
deriving DecidableEq, Repr

/-- The component state touched by the refresh cycle. -/
structure DashboardState where
  favorites : List Satellite
  passes : List Pass
  loading : Bool
  refreshing : Bool
  error : Option String
  lastUpdate : Option ℚ
deriving DecidableEq, Repr

/-- Outcome of one `loadDashboardData` cycle: the component state afterwards
and whether each of the two data fetches was issued during the cycle. -/
structure LoadResult where
  state : DashboardState
  favoritesFetchAttempted : Bool
  passesFetchAttempted : Bool
deriving DecidableEq, Repr

/-- `loadDashboardData`: `isHealthy` is what `checkBackendHealth()`
resolves to, `favResult`/`passResult` the outcomes the two fetches would
settle with, `now` the value of `new Date()` at completion. -/
def loadDashboardData (s : DashboardState) (isHealthy : Bool)
    (favResult : Except String (List Satellite))
    (passResult : Except String (List Pass)) (now : ℚ) : LoadResult :=
  let s1 : DashboardState := { s with loading := true, error := none }
  if !isHealthy then
    let s2 : DashboardState := { s1 with
      error :=
        some "Backend service is not available. Please check if the server is running.",
      favorites := [],
      passes := [],
      loading := false }
    ⟨s2, false, false⟩
  else
    let favs := match favResult with
      | .ok v => v
      | .error _ => ([] : List Satellite)
    let ps := match passResult with
      | .ok v => v
      | .error _ => ([] : List Pass)
    let s2 : DashboardState := { s1 with
      favorites := favs,
      passes := ps,
      lastUpdate := some now,
      loading := false }
    ⟨s2, true, true⟩

/-- **C6.** When the health probe does not report healthy, the cycle clears
both collections to empty, surfaces the descriptive error message, and
issues neither the favorites fetch nor the passes fetch. -/
theorem C6_unhealthy_clears_and_skips_fetches (s : DashboardState)
    (favResult : Except String (List Satellite))
    (passResult : Except String (List Pass)) (now : ℚ) :
    (loadDashboardData s false favResult passResult now).state.favorites = [] ∧
    (loadDashboardData s false favResult passResult now).state.passes = [] ∧
    (loadDashboardData s false favResult passResult now).state.error =
      some "Backend service is not available. Please check if the server is running." ∧
    (loadDashboardData s false favResult passResult now).favoritesFetchAttempted = false ∧
    (loadDashboardData s false favResult passResult now).passesFetchAttempted = false := by
  simp [loadDashboardData]

/-- **C7.** In a healthy cycle in which exactly one fetch fails, the failed
side's collection degrades to empty, the successful side's collection holds
exactly the fetched data, and the last-updated timestamp still advances
(it is set to the cycle's completion time, later than any previous value
under a monotone clock). -/
theorem C7_partial_failure_degrades_only_failed_side (s : DashboardState)
    (emsg emsg2 : String) (d : List Pass) (d2 : List Satellite) (now : ℚ)
    (hclock : ∀ t, s.lastUpdate = some t → t < now) :
    ((loadDashboardData s true (.error emsg) (.ok d) now).state.favorites = [] ∧
     (loadDashboardData s true (.error emsg) (.ok d) now).state.passes = d ∧
     ∃ t2, (loadDashboardData s true (.error emsg) (.ok d) now).state.lastUpdate = some t2 ∧
       ∀ t, s.lastUpdate = some t → t < t2) ∧
    ((loadDashboardData s true (.ok d2) (.error emsg2) now).state.favorites = d2 ∧
     (loadDashboardData s true (.ok d2) (.error emsg2) now).state.passes = [] ∧
     ∃ t2, (loadDashboardData s true (.ok d2) (.error emsg2) now).state.lastUpdate = some t2 ∧
       ∀ t, s.lastUpdate = some t → t < t2) := by
  refine ⟨⟨?_, ?_, ⟨now, ?_, hclock⟩⟩, ⟨?_, ?_, ⟨now, ?_, hclock⟩⟩⟩ <;>
    simp [loadDashboardData]

/-- The concrete cycle used to witness C7: previous update at time 1, cycle
completing at time 5; favorites fetch fails, passes fetch returns one pass. -/
def c7Run : LoadResult :=
  loadDashboardData ⟨[], [], false, false, none, some 1⟩ true
    (.error "favorites down") (.ok [⟨⟨"ISS", 25544⟩, 10, 600, 45, "visible", none⟩]) 5

/-- Witness for C7 at the concrete cycle `c7Run`. -/
theorem C7_partial_failure_degrades_only_failed_side_witness :
    c7Run.state.passes = [⟨⟨"ISS", 25544⟩, 10, 600, 45, "visible", none⟩] ∧
    c7Run.state.favorites = [] :=
  have h := C7_partial_failure_degrades_only_failed_side
    ⟨[], [], false, false, none, some 1⟩ "favorites down" "x"
    [⟨⟨"ISS", 25544⟩, 10, 600, 45, "visible", none⟩] [] 5
    (by intro t ht; injection ht with ht; rw [← ht]; norm_num)
  ⟨h.1.2.1, h.1.1⟩

/-! ## Positions refresh (`refreshPositions`, part of the dashboard)

`refreshPositions` is the shared entry point of the auto-refresh timer tick
and the Refresh-Positions button.  It returns immediately when no favorite
is stored; otherwise it marks `refreshing`, awaits a fresh favorites fetch,
stores its result and advances the timestamp (a rejection is only logged). -/

/-- Outcome of one `refreshPositions` call: the component state afterwards
and whether the favorites request was issued at all. -/
structure RefreshResult where
  state : DashboardState
  fetchIssued : Bool
deriving DecidableEq, Repr

/-- `refreshPositions`, run to completion as one atomic request/response
exchange (`favResult` is the outcome the fetch would settle with). -/
def refreshPositions (s : DashboardState)
    (favResult : Except String (List Satellite)) (now : ℚ) : RefreshResult :=
  if s.favorites.length = 0 then ⟨s, false⟩
  else
    let s1 : DashboardState := { s with refreshing := true }
    match favResult with
    | .ok favs =>
      let s2 : DashboardState := { s1 with
        favorites := favs,
        lastUpdate := some now,
        refreshing := false }
      ⟨s2, true⟩
    | .error _ => ⟨{ s1 with refreshing := false }, true⟩

/-- **C10.** When the favorites collection is empty, `refreshPositions`
returns immediately: it issues no network fetch and leaves the entire
component state — favorites, passes, timestamp, error — untouched. -/
theorem C10_refreshPositions_empty_noop (s : DashboardState)
    (favResult : Except String (List Satellite)) (now : ℚ)
    (h : s.favorites = []) :
    refreshPositions s favResult now = ⟨s, false⟩ := by
  simp [refreshPositions, h]

/-- Witness for C10: a concrete state with no favorites is returned verbatim
with no fetch issued. -/
theorem C10_refreshPositions_empty_noop_witness :
    refreshPositions ⟨[], [⟨⟨"ISS", 25544⟩, 10, 600, 45, "visible", none⟩], false, false,
        some "old error", some 3⟩ (.ok [⟨7, "HST", 20580, none, 2⟩]) 9
      = ⟨⟨[], [⟨⟨"ISS", 25544⟩, 10, 600, 45, "visible", none⟩], false, false,
        some "old error", some 3⟩, false⟩ :=
  C10_refreshPositions_empty_noop
    ⟨[], [⟨⟨"ISS", 25544⟩, 10, 600, 45, "visible", none⟩], false, false,
      some "old error", some 3⟩ (.ok [⟨7, "HST", 20580, none, 2⟩]) 9 rfl

/-! ## Overlap analysis of the refresh scheduler (C8)

The auto-refresh effect runs `setInterval(() => refreshPositions(), ...)`;
the Refresh-Positions button also calls `refreshPositions` but is rendered
with `disabled={refreshing}`.  `refreshPositions` itself guards only
against an empty favorites list — it never checks `refreshing` — so the
timer path can start a cycle while one is still in flight. -/

/-- Scheduler state with a ghost `inFlight` counter: the number of
favorites requests issued by `refreshPositions` and not yet settled. -/
structure SchedulerState where
  favorites : List Satellite
  refreshing : Bool
  inFlight : Nat
deriving DecidableEq, Repr

/-- The synchronous prefix of `refreshPositions` (everything before its
first `await`), as executed when a timer tick fires: the empty-favorites
guard, then `setRefreshing(true)` and issue of the favorites request. -/
def tickStart (s : SchedulerState) : SchedulerState :=
  if s.favorites.length = 0 then s
  else { s with refreshing := true, inFlight := s.inFlight + 1 }

/-- The manual path: a click reaches `refreshPositions` only when the
button is enabled, i.e. when `refreshing` is false. -/
def manualRefreshClick (s : SchedulerState) : SchedulerState :=
  if s.refreshing then s else tickStart s

/-- A concrete favorite satellite for the scheduler scenarios. -/
def issSatellite : Satellite := ⟨1, "ISS", 25544, none, 0⟩

/-- **C8, counterexample.** From the reachable state in which one cycle is
already in flight (one `tickStart` applied to an idle state with a
nonempty favorites list), a second timer tick starts another cycle: two
favorites requests are then in flight, refuting "at most one refresh cycle
is in flight; a tick arriving while a cycle is still running is dropped". -/
theorem C8_tick_overlap_counterexample :
    ¬ ((tickStart (tickStart ⟨[issSatellite], false, 0⟩)).inFlight ≤ 1) := by
  decide

/-- **C8, amended.** Only the manual button path is guarded: a click while
a cycle is in flight (`refreshing = true`) is a no-op, but a timer tick
with a nonempty favorites list always starts a new cycle, even while one
is still running — `refreshPositions` has no in-flight guard of its own. -/
theorem C8_overlap_guard_button_only (s : SchedulerState) :
    (s.refreshing = true → manualRefreshClick s = s) ∧
    (s.favorites ≠ [] → (tickStart s).inFlight = s.inFlight + 1) := by
  constructor
  · intro h
    simp [manualRefreshClick, h]
  · intro h
    simp [tickStart, List.length_eq_zero, h]

/-- Witness for the amended C8 at the mid-cycle state: the click is
dropped, the tick raises the in-flight count to 2. -/
theorem C8_overlap_guard_button_only_witness :
    manualRefreshClick ⟨[issSatellite], true, 1⟩ = ⟨[issSatellite], true, 1⟩ ∧
    (tickStart ⟨[issSatellite], true, 1⟩).inFlight = 1 + 1 :=
  ⟨(C8_overlap_guard_button_only ⟨[issSatellite], true, 1⟩).1 rfl,
   (C8_overlap_guard_button_only ⟨[issSatellite], true, 1⟩).2 (by simp)⟩

/-! ## Derived view pipeline (C9)

`filteredAndSortedSatellites` always runs `favorites.filter(...)`, which
allocates a fresh array, before its in-place `sort`.
`filteredAndSortedPasses` starts with `let filtered = passes` — an alias of
the stored state array — and only replaces the alias by a fresh array when
one of the two optional filters applies; the final in-place `sort` then
reorders whatever array `filtered` refers to.  The embedding returns both
the displayed list and the stored array as it stands after the call. -/

/-- Model of `String.prototype.includes`: the needle occurs (character-wise)
at some position of the haystack. -/
def charsIncludes (needle : List Char) : List Char → Bool
  | [] => needle.isPrefixOf []
  | c :: t => needle.isPrefixOf (c :: t) || charsIncludes needle t

/-- `hay.includes(needle)` on strings. -/
def jsIncludes (hay needle : String) : Bool :=
  charsIncludes needle.data hay.data

/-- `toLowerCase`, character-wise. -/
def jsToLower (s : String) : String :=
  ⟨s.data.map Char.toLower⟩

/-- Model of `String.prototype.localeCompare`: code-point lexicographic
comparison, negative / zero / positive as JS comparators expect. -/
def localeCompare (a b : String) : ℚ :=
  if a.data < b.data then -1 else if b.data < a.data then 1 else 0

/-- The `satelliteSort` select values (`default` branch of the switch is
`other`). -/
inductive SatelliteSortKey where
  | name
  | norad_id
  | altitude
  | velocity
  | added_at
  | other
deriving DecidableEq, Repr

/-- `satellite.current_position?.altitude || 0`. -/
def positionAltitude (s : Satellite) : ℚ :=
  match s.current_position with
  | some p => p.altitude
  | none => 0

/-- `satellite.current_position?.velocity || 0`. -/
def positionVelocity (s : Satellite) : ℚ :=
  match s.current_position with
  | some p => p.velocity
  | none => 0

/-- The satellite comparator (the `switch (satelliteSort)` in
`filteredAndSortedSatellites`): altitude/velocity/added-at descending,
name/NORAD id ascending, 0 in the default branch. -/
def satelliteCompare (key : SatelliteSortKey) (a b : Satellite) : ℚ :=
  match key with
  | .name => localeCompare a.name b.name
  | .norad_id => (a.norad_id : ℚ) - (b.norad_id : ℚ)
  | .altitude => positionAltitude b - positionAltitude a
  | .velocity => positionVelocity b - positionVelocity a
  | .added_at => b.added_at - a.added_at
  | .other => 0

/-- `Array.prototype.sort(cmp)` — stable per ES2019 — modelled as a stable
sort placing `a` no later than `b` whenever `cmp a b ≤ 0`. -/
def jsSortBy {α : Type} (cmp : α → α → ℚ) (l : List α) : List α :=
  l.insertionSort (fun a b => cmp a b ≤ 0)

/-- The satellite filter predicate: case-insensitive substring match on the
name, or substring match on the NORAD id's decimal text. -/
def satelliteMatches (filter : String) (s : Satellite) : Bool :=
  jsIncludes (jsToLower s.name) (jsToLower filter) ||
    jsIncludes (toString s.norad_id) filter

/-- Result of a derived-view call: the list handed to the renderer and the
state array as the component stores it after the call (the in-place sort
makes the two coincide when no filter copied the array first). -/
structure ViewResult (α : Type) where
  displayed : List α
  storedAfter : List α
deriving DecidableEq, Repr

/-- `filteredAndSortedSatellites`: `favorites.filter(...)` allocates a
fresh array, so the in-place sort never touches the stored favorites. -/
def filteredAndSortedSatellites (favorites : List Satellite) (filter : String)
    (sortKey : SatelliteSortKey) : ViewResult Satellite :=
  let filtered := favorites.filter (satelliteMatches filter)
  ⟨jsSortBy (satelliteCompare sortKey) filtered, favorites⟩

/-- The `passSort` select values. -/
inductive PassSortKey where
  | start_time
  | elevation
  | duration
  | satellite
  | other
deriving DecidableEq, Repr

/-- The `passFilter` select: `'all'`, or a numeric option whose
`parseInt` is the minimum elevation. -/
inductive PassFilterSel where
  | all
  | minElevation (n : Int)
deriving DecidableEq, Repr

/-- The pass comparator (the `switch (passSort)` in
`filteredAndSortedPasses`). -/
def passCompare (key : PassSortKey) (a b : Pass) : ℚ :=
  match key with
  | .start_time => a.start_time - b.start_time
  | .elevation => b.max_elevation - a.max_elevation
  | .duration => b.duration - a.duration
  | .satellite => localeCompare a.satellite.name b.satellite.name
  | .other => 0

/-- `filteredAndSortedPasses`: `let filtered = passes` aliases the stored
array; each applied `.filter` replaces the alias by a fresh array; the
in-place `sort` therefore reorders the stored `passes` exactly when
neither filter ran. -/
def filteredAndSortedPasses (passes : List Pass) (showOnlyVisible : Bool)
    (passFilter : PassFilterSel) (sortKey : PassSortKey) : ViewResult Pass :=
  let filtered1 := if showOnlyVisible then
    passes.filter (fun p => p.visibility == "visible") else passes
  let filtered2 := match passFilter with
    | .all => filtered1
    | .minElevation n => filtered1.filter (fun p => decide ((n : ℚ) ≤ p.max_elevation))
  let sorted := jsSortBy (passCompare sortKey) filtered2
  ⟨sorted, if showOnlyVisible = true ∨ passFilter ≠ PassFilterSel.all then passes else sorted⟩

/-- Two concrete passes whose start times are out of order. -/
def passLate : Pass := ⟨⟨"ISS", 25544⟩, 10, 600, 45, "visible", none⟩

/-- See `passLate`. -/
def passEarly : Pass := ⟨⟨"HST", 20580⟩, 5, 300, 30, "daylight", none⟩

/-- **C9, counterexample.** With both pass filters off (`showOnlyVisible =
false`, elevation filter `'all'`) and sort by start time, the call sorts
the stored `passes` array in place: afterwards the underlying collection
is `[passEarly, passLate]`, no longer the original `[passLate, passEarly]`
— refuting "applying the pipeline leaves the underlying collections
unchanged". -/
theorem C9_pass_inplace_sort_counterexample :
    (filteredAndSortedPasses [passLate, passEarly] false PassFilterSel.all
        PassSortKey.start_time).storedAfter ≠ [passLate, passEarly] := by
  have hsorted : (filteredAndSortedPasses [passLate, passEarly] false PassFilterSel.all
      PassSortKey.start_time).storedAfter = [passEarly, passLate] := by
    simp [filteredAndSortedPasses, jsSortBy, List.insertionSort, List.orderedInsert,
      passCompare, passLate, passEarly]
    norm_num
  rw [hsorted]
  simp [passLate, passEarly]

/-- **C9, amended.** The satellite pipeline never mutates the stored
favorites (its `.filter` always copies before the in-place sort), and the
pass pipeline leaves the stored passes unchanged whenever at least one
pass filter applies (`showOnlyVisible`, or a numeric elevation threshold);
but with both pass filters off the in-place sort reorders the stored
passes array itself — the stored array afterwards is exactly the displayed
(sorted) list.  The displayed output is in every case a pure function of
the collection and the view parameters. -/
theorem C9_pipeline_mutation_amended (favorites : List Satellite)
    (filter : String) (skey : SatelliteSortKey) (passes : List Pass)
    (vis : Bool) (pf : PassFilterSel) (pkey : PassSortKey) :
    (filteredAndSortedSatellites favorites filter skey).storedAfter = favorites ∧
    ((vis = true ∨ pf ≠ PassFilterSel.all) →
      (filteredAndSortedPasses passes vis pf pkey).storedAfter = passes) ∧
    (vis = false → pf = PassFilterSel.all →
      (filteredAndSortedPasses passes vis pf pkey).storedAfter
        = (filteredAndSortedPasses passes vis pf pkey).displayed) := by
  refine ⟨rfl, ?_, ?_⟩
  · intro h
    simp only [filteredAndSortedPasses]
    rw [if_pos h]
  · intro hv hp
    subst hv
    subst hp
    simp [filteredAndSortedPasses]

/-- Witness for the amended C9: with the visibility filter on, the stored
passes survive the call unchanged; the stored favorites always do. -/
theorem C9_pipeline_mutation_amended_witness :
    (filteredAndSortedPasses [passLate, passEarly] true PassFilterSel.all
        PassSortKey.start_time).storedAfter = [passLate, passEarly] ∧
    (filteredAndSortedSatellites [] "" SatelliteSortKey.name).storedAfter = [] :=
  ⟨(C9_pipeline_mutation_amended [] "" SatelliteSortKey.name [passLate, passEarly]
      true PassFilterSel.all PassSortKey.start_time).2.1 (Or.inl rfl),
   (C9_pipeline_mutation_amended [] "" SatelliteSortKey.name [passLate, passEarly]
      true PassFilterSel.all PassSortKey.start_time).1⟩
